import Mathlib

/-!
Verification of the floating-window / task-tracker / range-parser core of the
repository, as a shallow embedding in Lean.

Embedded sources:
* `src/src/utils/rangeParser.ts` — `parseRangeInput`, `expandRangesToPages`.
* `src/unnamed/part_001` (ExtraTools component) — the per-task-type progress
  tracker (`addLog`, `updateTaskProgress`, `completeTask`, `resetTask`) and the
  validation entry paths of `handleTextToTxt` / `handlePdfMerge`.
* `src/unnamed/part_002` (WindowManager component) — the window registry and
  its operations (`createWindow`, `closeWindow`, `updateWindow`, `focusWindow`,
  `minimizeWindow`, `maximizeWindow`, `restoreWindow`, `getNextZIndex`).

Modelling conventions: JS numbers appearing as page numbers / counters are
`Nat`, pixel coordinates are `Int`; JS objects of type `Partial<WindowState>`
are records whose every field is an `Option` (a `none` field models an absent
key, and object spread `{...a, ...b}` is per-field `b.f <|> a.f`); React
`useState` functional updates are modelled as taking effect immediately, one
manager operation per event-handler invocation.  Wall-clock data (`Date.now()`
log ids and timestamps, `Math.random()` range ids) is nondeterministic display
metadata and is omitted from the embedded records; no claim refers to it.
-/

namespace S2P

/-! ### Range parser (src/src/utils/rangeParser.ts) -/

/-- Numeric value of a digit string, as `parseInt(_, 10)` computes it on a
string matched by `\d+`. -/
def digitsVal (cs : List Char) : Nat :=
  cs.foldl (fun n c => n * 10 + (c.toNat - 48)) 0

/-- The three separators accepted by the hyphen regex `[-–—]`
(hyphen, en dash, em dash). -/
def isDashChar (c : Char) : Bool :=
  c == '-' || c == '–' || c == '—'

/-- Matcher for the regex `^(\d+)\s*[-–—]\s*(\d+)$` (rangeParser.ts line 27):
returns the two captured numbers when the whole string is digits, optional
whitespace, one dash, optional whitespace, digits. -/
def hyphenMatch (s : String) : Option (Nat × Nat) :=
  let cs := s.toList
  let ds1 := cs.takeWhile Char.isDigit
  let rest1 := (cs.dropWhile Char.isDigit).dropWhile Char.isWhitespace
  match rest1 with
  | [] => none
  | c :: rest2 =>
    if isDashChar c then
      let rest3 := rest2.dropWhile Char.isWhitespace
      let ds2 := rest3.takeWhile Char.isDigit
      if ds1 ≠ [] ∧ ds2 ≠ [] ∧ rest3.dropWhile Char.isDigit = [] then
        some (digitsVal ds1, digitsVal ds2)
      else none
    else none

/-- Matcher for the regex `^(\d+)$` (rangeParser.ts line 28). -/
def singleMatch (s : String) : Option Nat :=
  let cs := s.toList
  if cs ≠ [] ∧ cs.all Char.isDigit then some (digitsVal cs) else none

/-- A parsed range: the raw token plus the normalized bounds
(`RangeDescriptor` of rangeParser.ts, its fresh random `id` omitted as
nondeterministic metadata; `normalized.start`/`normalized.end` are inlined as
`start`/`end_`). -/
structure RangeDescriptor where
  raw : String
  start : Nat
  end_ : Nat
deriving DecidableEq

/-- Result record of `parseRangeInput`. -/
structure ParseResult where
  success : Bool
  ranges : List RangeDescriptor
  errors : List String
deriving DecidableEq

/-- One iteration of the token loop of `parseRangeInput`
(rangeParser.ts lines 26-54): a token yields either a descriptor or an error
message, with the exact message texts of lines 35 and 52. -/
def parsePart (part : String) : Sum RangeDescriptor String :=
  match hyphenMatch part with
  | some (start, end_) =>
    if start > end_ then
      Sum.inr ("Invalid range \"" ++ part ++ "\": start (" ++ toString start ++
        ") is greater than end (" ++ toString end_ ++ ")")
    else
      Sum.inl ⟨part, start, end_⟩
  | none =>
    match singleMatch part with
    | some num => Sum.inl ⟨part, num, num⟩
    | none =>
      Sum.inr ("Invalid range format: \"" ++ part ++
        "\". Use formats like \"5-10\" or \"5–10\" or \"5\"")

/-- Whitespace trimming on both ends, as JS `String.prototype.trim`. -/
def trimChars (cs : List Char) : List Char :=
  ((cs.dropWhile Char.isWhitespace).reverse.dropWhile Char.isWhitespace).reverse

/-- JS `s.trim()`. -/
def jsTrim (s : String) : String :=
  ⟨trimChars s.toList⟩

/-- JS `s.split(',')`: the empty string yields one empty piece, a trailing
comma yields a trailing empty piece. -/
def splitOnComma : List Char → List (List Char)
  | [] => [[]]
  | c :: rest =>
    let r := splitOnComma rest
    if c = ',' then [] :: r
    else
      match r with
      | [] => [[c]]
      | h :: t => (c :: h) :: t

/-- The token list of `parseRangeInput`
(line 24: `input.split(',').map(p => p.trim()).filter(p => p)`). -/
def partsOf (input : String) : List String :=
  ((splitOnComma input.toList).map (fun cs => (⟨trimChars cs⟩ : String))).filter
    (fun p => p ≠ "")

/-- Accumulating step of the token loop: descriptors and errors are pushed in
input order. -/
def parseStep (acc : List RangeDescriptor × List String) (part : String) :
    List RangeDescriptor × List String :=
  match parsePart part with
  | Sum.inl r => (acc.1 ++ [r], acc.2)
  | Sum.inr e => (acc.1, acc.2 ++ [e])

/-- `parseRangeInput` (rangeParser.ts lines 16-61).  `!input || input.trim()
=== ''` is the `input.trim = ""` test; `success` is `errors.length === 0`. -/
def parseRangeInput (input : String) : ParseResult :=
  if jsTrim input = "" then
    ⟨false, [], ["Input cannot be empty"]⟩
  else
    let (ranges, errors) := (partsOf input).foldl parseStep ([], [])
    ⟨errors.length == 0, ranges, errors⟩

/-- The descriptor a token contributes, if any (projection of `parsePart`). -/
def rangeOf? (p : String) : Option RangeDescriptor :=
  match parsePart p with
  | Sum.inl r => some r
  | Sum.inr _ => none

/-- The error message a token contributes, if any (projection of
`parsePart`). -/
def errorOf? (p : String) : Option String :=
  match parsePart p with
  | Sum.inl _ => none
  | Sum.inr e => some e

/-- One `pageNumbers.add(i)` call on the JS `Set` (modelled as a duplicate-free
list in insertion order): appends the number unless already present. -/
def insertPage (l : List Nat) (n : Nat) : List Nat :=
  if n ∈ l then l else l ++ [n]

/-- The page numbers collected by the nested loops of `expandRangesToPages`
(rangeParser.ts lines 66-70): for each range, `i` runs from `start` to `end`
inclusively. -/
def collectPages (ranges : List RangeDescriptor) : List Nat :=
  ranges.foldl
    (fun acc r => (List.range' r.start (r.end_ + 1 - r.start)).foldl insertPage acc) []

/-- `expandRangesToPages` (rangeParser.ts lines 63-73):
`Array.from(pageNumbers).sort((a, b) => a - b)` sorts the collected set
ascending. -/
def expandRangesToPages (ranges : List RangeDescriptor) : List Nat :=
  (collectPages ranges).insertionSort (· ≤ ·)

/-! ### Task progress tracker (src/unnamed/part_001, ExtraTools) -/

/-- The fixed task-type enumeration (part_001 line 32). -/
inductive TaskType
  | pdfToZip
  | imagesToPdf
  | textToTxt
  | pdfPassword
  | pdfMerge
deriving DecidableEq

/-- Task status enumeration (part_001 line 24). -/
inductive TaskStatus
  | idle
  | processing
  | completed
  | error
deriving DecidableEq

/-- Log severity enumeration (part_001 line 18). -/
inductive LogType
  | info
  | success
  | error
  | progress
deriving DecidableEq

/-- A result payload (JS `Blob`); only its identity matters to the tracker. -/
structure Blob where
  data : String
deriving DecidableEq

/-- One task log entry (part_001 lines 14-19; the wall-clock `id` and
`timestamp` fields are omitted as nondeterministic display metadata). -/
structure TaskLog where
  message : String
  type : LogType
deriving DecidableEq

/-- Per-task state (part_001 lines 21-30). -/
structure TaskState where
  id : String
  name : String
  status : TaskStatus
  progress : Nat
  total : Nat
  logs : List TaskLog
  fileName : Option String
  result : Option Blob
deriving DecidableEq

/-- The task registry `Record<TaskType, TaskState>` (part_001 lines 37-43). -/
structure Tasks where
  pdfToZip : TaskState
  imagesToPdf : TaskState
  textToTxt : TaskState
  pdfPassword : TaskState
  pdfMerge : TaskState
deriving DecidableEq

/-- Lookup `tasks[taskType]`. -/
def getTask (ts : Tasks) : TaskType → TaskState
  | TaskType.pdfToZip => ts.pdfToZip
  | TaskType.imagesToPdf => ts.imagesToPdf
  | TaskType.textToTxt => ts.textToTxt
  | TaskType.pdfPassword => ts.pdfPassword
  | TaskType.pdfMerge => ts.pdfMerge

/-- Functional update `{...prev, [taskType]: v}`. -/
def setTask (ts : Tasks) (τ : TaskType) (v : TaskState) : Tasks :=
  match τ with
  | TaskType.pdfToZip => { ts with pdfToZip := v }
  | TaskType.imagesToPdf => { ts with imagesToPdf := v }
  | TaskType.textToTxt => { ts with textToTxt := v }
  | TaskType.pdfPassword => { ts with pdfPassword := v }
  | TaskType.pdfMerge => { ts with pdfMerge := v }

/-- Initial task registry (part_001 lines 37-43). -/
def tasksInit : Tasks where
  pdfToZip := ⟨"pdfToZip", "PDF to ZIP", TaskStatus.idle, 0, 0, [], none, none⟩
  imagesToPdf := ⟨"imagesToPdf", "Images to PDF", TaskStatus.idle, 0, 0, [], none, none⟩
  textToTxt := ⟨"textToTxt", "Text to TXT", TaskStatus.idle, 0, 0, [], none, none⟩
  pdfPassword := ⟨"pdfPassword", "PDF Password", TaskStatus.idle, 0, 0, [], none, none⟩
  pdfMerge := ⟨"pdfMerge", "PDF Merge", TaskStatus.idle, 0, 0, [], none, none⟩

/-- `addLog` (part_001 lines 68-81): appends one log entry, touching nothing
else. -/
def addLog (ts : Tasks) (τ : TaskType) (message : String) (type : LogType) : Tasks :=
  setTask ts τ { getTask ts τ with logs := (getTask ts τ).logs ++ [⟨message, type⟩] }

/-- `updateTaskProgress` (part_001 lines 83-93): overwrites the counters and
forces status `processing`. -/
def updateTaskProgress (ts : Tasks) (τ : TaskType) (progress total : Nat) : Tasks :=
  setTask ts τ
    { getTask ts τ with
        progress := progress
        total := total
        status := TaskStatus.processing }

/-- `completeTask` (part_001 lines 95-105): forces status `completed` and
stores the optional result and file name. -/
def completeTask (ts : Tasks) (τ : TaskType) (result : Option Blob)
    (fileName : Option String) : Tasks :=
  setTask ts τ
    { getTask ts τ with
        status := TaskStatus.completed
        result := result
        fileName := fileName }

/-- `resetTask` (part_001 lines 107-120): one state replacement returning the
task to idle and clearing counters, logs, result and file name. -/
def resetTask (ts : Tasks) (τ : TaskType) : Tasks :=
  setTask ts τ
    { getTask ts τ with
        status := TaskStatus.idle
        progress := 0
        total := 0
        logs := []
        result := none
        fileName := none }

/-- `handleTextToTxt` (part_001 lines 275-305), which is fully synchronous: an
empty (after trim) text input only appends an error log and returns; otherwise
the task is reset, logged, progressed to 1/1 and completed with the `.txt`
blob.  DOM download side effects and the component-local input clearing are
outside the task registry and not modelled. -/
def handleTextToTxt (textInput txtFileName : String) (ts : Tasks) : Tasks :=
  if jsTrim textInput = "" then
    addLog ts TaskType.textToTxt "Please enter some text first!" LogType.error
  else
    let fileName := if jsTrim txtFileName = "" then "document" else jsTrim txtFileName
    let ts := resetTask ts TaskType.textToTxt
    let ts := addLog ts TaskType.textToTxt
      ("Creating text file: " ++ fileName ++ ".txt") LogType.info
    let ts := updateTaskProgress ts TaskType.textToTxt 1 1
    let ts := completeTask ts TaskType.textToTxt (some ⟨textInput⟩)
      (some (fileName ++ ".txt"))
    addLog ts TaskType.textToTxt
      ("Completed! Downloading: " ++ fileName ++ ".txt") LogType.success

/-- Validation entry of `handlePdfMerge` (part_001 lines 361-366): with fewer
than two selected files the handler appends one error log and returns early
(`some` of the updated registry); with enough files it proceeds into the
asynchronous merge, which is owned by the external PDF library and not
modelled (`none`). -/
def handlePdfMergeEntry (files : List String) (ts : Tasks) : Option Tasks :=
  if files.length < 2 then
    some (addLog ts TaskType.pdfMerge "Please select at least 2 PDF files to merge!"
      LogType.error)
  else none

/-! ### Window manager (src/unnamed/part_002, WindowManager) -/

/-- A pixel position `{x, y}`. -/
structure Pos where
  x : Int
  y : Int
deriving DecidableEq

/-- A pixel size `{width, height}`. -/
structure Size where
  width : Int
  height : Int
deriving DecidableEq

/-- Snap states (part_002 line 11). -/
inductive SnapState
  | none
  | left
  | right
  | top
  | bottom
deriving DecidableEq

/-- A registry entry.  JS object spread cannot guarantee any field: entries
written by `closeWindow`/`updateWindow`/`focusWindow` on an id never passed to
`createWindow` lack the defaulted fields, so every `WindowState` field is an
`Option` here (`none` models an absent key).  This same record also serves as
the `Partial<WindowState>` argument type of `createWindow`/`updateWindow`. -/
structure WinEntry where
  id : Option String
  visible : Option Bool
  position : Option Pos
  size : Option Size
  zIndex : Option Nat
  minimized : Option Bool
  maximized : Option Bool
  snapState : Option SnapState
  title : Option String
  icon : Option String
deriving DecidableEq

/-- The empty object `{}` (also what spreading `undefined` contributes). -/
def emptyEntry : WinEntry :=
  ⟨none, none, none, none, none, none, none, none, none, none⟩

/-- JS object spread `{...base, ...upd}`: per field, `upd` wins when it has
the key. -/
def mergeEntry (base upd : WinEntry) : WinEntry where
  id := upd.id <|> base.id
  visible := upd.visible <|> base.visible
  position := upd.position <|> base.position
  size := upd.size <|> base.size
  zIndex := upd.zIndex <|> base.zIndex
  minimized := upd.minimized <|> base.minimized
  maximized := upd.maximized <|> base.maximized
  snapState := upd.snapState <|> base.snapState
  title := upd.title <|> base.title
  icon := upd.icon <|> base.icon

/-- The defaults object built by `createWindow` (part_002 lines 50-59) with
the fresh zIndex `z` returned by `getNextZIndex`. -/
def defaultEntry (id : String) (z : Nat) : WinEntry where
  id := some id
  visible := some true
  position := some ⟨100, 100⟩
  size := some ⟨400, 300⟩
  zIndex := some z
  minimized := some false
  maximized := some false
  snapState := some SnapState.none
  title := some "Window"
  icon := none

/-- Manager state: the `windows` registry plus the `maxZIndex` counter
(part_002 lines 39-40).  React functional state updates are modelled as
applied immediately, one operation per event-handler invocation, so
`getNextZIndex` both bumps the counter and returns the bumped value. -/
structure MgrState where
  windows : String → Option WinEntry
  maxZIndex : Nat

/-- Initial manager state: empty registry, counter 2000 (part_002 line 40). -/
def mgrInit : MgrState where
  windows := fun _ => none
  maxZIndex := 2000

/-- Registry write `{...prev, [id]: e}`. -/
def setWin (w : String → Option WinEntry) (id : String) (e : WinEntry) :
    String → Option WinEntry :=
  fun k => if k = id then some e else w k

/-- `createWindow` (part_002 lines 47-63): unconditionally writes the defaults
(with a fresh zIndex) merged under the caller's initial state. -/
def createWindow (s : MgrState) (id : String) (initialState : WinEntry) : MgrState where
  windows := setWin s.windows id
    (mergeEntry (defaultEntry id (s.maxZIndex + 1)) initialState)
  maxZIndex := s.maxZIndex + 1

/-- `closeWindow` (part_002 lines 65-70): `{...prev[id], visible: false}`. -/
def closeWindow (s : MgrState) (id : String) : MgrState :=
  { s with
    windows :=
      setWin s.windows id { (s.windows id).getD emptyEntry with visible := some false } }

/-- `updateWindow` (part_002 lines 72-77): `{...prev[id], ...updates}`. -/
def updateWindow (s : MgrState) (id : String) (updates : WinEntry) : MgrState :=
  { s with
    windows :=
      setWin s.windows id (mergeEntry ((s.windows id).getD emptyEntry) updates) }

/-- `focusWindow` (part_002 lines 79-84): assigns the next zIndex from the
counter. -/
def focusWindow (s : MgrState) (id : String) : MgrState where
  windows :=
    setWin s.windows id
      { (s.windows id).getD emptyEntry with zIndex := some (s.maxZIndex + 1) }
  maxZIndex := s.maxZIndex + 1

/-- `minimizeWindow` (part_002 lines 86-91): sets `minimized` only. -/
def minimizeWindow (s : MgrState) (id : String) : MgrState :=
  { s with
    windows :=
      setWin s.windows id { (s.windows id).getD emptyEntry with minimized := some true } }

/-- `maximizeWindow` (part_002 lines 93-98): sets `maximized`, clears
`minimized`. -/
def maximizeWindow (s : MgrState) (id : String) : MgrState :=
  { s with
    windows :=
      setWin s.windows id
        { (s.windows id).getD emptyEntry with
            maximized := some true
            minimized := some false } }

/-- `restoreWindow` (part_002 lines 100-105): clears both flags. -/
def restoreWindow (s : MgrState) (id : String) : MgrState :=
  { s with
    windows :=
      setWin s.windows id
        { (s.windows id).getD emptyEntry with
            maximized := some false
            minimized := some false } }

/-- One call to one of the seven manager operations. -/
inductive Op
  | create (id : String) (initialState : WinEntry)
  | close (id : String)
  | update (id : String) (updates : WinEntry)
  | focus (id : String)
  | minimize (id : String)
  | maximize (id : String)
  | restore (id : String)

/-- Dispatch one operation. -/
def stepMgr (s : MgrState) : Op → MgrState
  | Op.create id st => createWindow s id st
  | Op.close id => closeWindow s id
  | Op.update id u => updateWindow s id u
  | Op.focus id => focusWindow s id
  | Op.minimize id => minimizeWindow s id
  | Op.maximize id => maximizeWindow s id
  | Op.restore id => restoreWindow s id

/-- Run a finite sequence of operations. -/
def applyOps (s : MgrState) (ops : List Op) : MgrState :=
  ops.foldl stepMgr s

/-- An operation that does not inject a caller-supplied `zIndex` (the
`initialState`/`updates` object has no `zIndex` key). -/
def noZOverride : Op → Bool
  | Op.create _ st => st.zIndex.isNone
  | Op.update _ u => u.zIndex.isNone
  | _ => true

/-- Every registered window's zIndex is bounded by the counter. -/
def ZBound (s : MgrState) : Prop :=
  ∀ id e z, s.windows id = some e → e.zIndex = some z → z ≤ s.maxZIndex

/-- Distinct registered windows never share a zIndex value. -/
def ZDistinct (s : MgrState) : Prop :=
  ∀ id₁ id₂ e₁ e₂ z₁ z₂, id₁ ≠ id₂ →
    s.windows id₁ = some e₁ → s.windows id₂ = some e₂ →
    e₁.zIndex = some z₁ → e₂.zIndex = some z₂ → z₁ ≠ z₂

/-! ### General lemmas about the embedded operations -/

theorem setWin_self (w : String → Option WinEntry) (id : String) (e : WinEntry) :
    setWin w id e id = some e := by
  simp [setWin]

theorem setWin_ne (w : String → Option WinEntry) (id k : String) (e : WinEntry)
    (h : k ≠ id) : setWin w id e k = w k := by
  simp [setWin, h]

theorem orElse_none_right {α : Type} (x : Option α) : (x <|> none) = x := by
  cases x <;> rfl

theorem mergeEntry_empty_left (u : WinEntry) : mergeEntry emptyEntry u = u := by
  cases u
  simp [mergeEntry, emptyEntry, orElse_none_right]

theorem parse_foldl_eq (l : List String) (rs : List RangeDescriptor) (es : List String) :
    l.foldl parseStep (rs, es) = (rs ++ l.filterMap rangeOf?, es ++ l.filterMap errorOf?) := by
  induction l generalizing rs es with
  | nil => simp
  | cons p l ih =>
    cases hp : parsePart p with
    | inl r =>
      simp [parseStep, hp, rangeOf?, errorOf?, ih]
    | inr e =>
      simp [parseStep, hp, rangeOf?, errorOf?, ih]

theorem errors_length_eq_countP (l : List String) :
    (l.filterMap errorOf?).length = l.countP (fun p => (parsePart p).isRight) := by
  induction l with
  | nil => rfl
  | cons p l ih =>
    cases hp : parsePart p <;>
      simp [errorOf?, hp, List.countP_cons, ih]

theorem mem_insertPage {l : List Nat} {n x : Nat} :
    x ∈ insertPage l n ↔ x ∈ l ∨ x = n := by
  unfold insertPage
  by_cases h : n ∈ l
  · simp only [if_pos h]
    constructor
    · exact Or.inl
    · rintro (hx | rfl)
      exacts [hx, h]
  · simp [if_neg h]

theorem insertPage_nodup {l : List Nat} (n : Nat) (h : l.Nodup) :
    (insertPage l n).Nodup := by
  unfold insertPage
  by_cases hn : n ∈ l
  · simpa [hn]
  · simp [hn, List.nodup_append, h]

theorem foldl_insertPage_nodup (xs : List Nat) (acc : List Nat) (h : acc.Nodup) :
    (xs.foldl insertPage acc).Nodup := by
  induction xs generalizing acc with
  | nil => exact h
  | cons x xs ih => exact ih _ (insertPage_nodup x h)

theorem mem_foldl_insertPage (xs acc : List Nat) (y : Nat) :
    y ∈ xs.foldl insertPage acc ↔ y ∈ acc ∨ y ∈ xs := by
  induction xs generalizing acc with
  | nil => simp
  | cons x xs ih =>
    simp [List.foldl_cons, ih, mem_insertPage, or_assoc]

theorem mem_collectPages (ranges : List RangeDescriptor) (y : Nat) :
    y ∈ collectPages ranges ↔ ∃ r ∈ ranges, r.start ≤ y ∧ y ≤ r.end_ := by
  suffices h : ∀ acc : List Nat,
      y ∈ ranges.foldl
          (fun acc r => (List.range' r.start (r.end_ + 1 - r.start)).foldl insertPage acc)
          acc ↔
        y ∈ acc ∨ ∃ r ∈ ranges, r.start ≤ y ∧ y ≤ r.end_ by
    simpa [collectPages] using h []
  induction ranges with
  | nil => simp
  | cons r rs ih =>
    intro acc
    rw [List.foldl_cons, ih, mem_foldl_insertPage, List.mem_range'_1]
    constructor
    · rintro (((h1 | h2) | h3))
      · exact Or.inl h1
      · exact Or.inr ⟨r, by simp, by omega⟩
      · obtain ⟨r', hr', hy⟩ := h3
        exact Or.inr ⟨r', by simp [hr'], hy⟩
    · rintro (h1 | ⟨r', hr', hy⟩)
      · exact Or.inl (Or.inl h1)
      · rcases List.mem_cons.1 hr' with rfl | hr''
        · exact Or.inl (Or.inr (by omega))
        · exact Or.inr ⟨r', hr'', hy⟩

theorem collectPages_nodup (ranges : List RangeDescriptor) :
    (collectPages ranges).Nodup := by
  suffices h : ∀ acc : List Nat, acc.Nodup →
      (ranges.foldl
          (fun acc r => (List.range' r.start (r.end_ + 1 - r.start)).foldl insertPage acc)
          acc).Nodup from h [] List.nodup_nil
  induction ranges with
  | nil => exact fun acc h => h
  | cons r rs ih => exact fun acc h => ih _ (foldl_insertPage_nodup _ _ h)

theorem zinv_write_fresh (s : MgrState) (id : String) (e' : WinEntry)
    (hz : e'.zIndex = some (s.maxZIndex + 1))
    (hb : ZBound s) (hd : ZDistinct s) :
    ZBound ⟨setWin s.windows id e', s.maxZIndex + 1⟩ ∧
    ZDistinct ⟨setWin s.windows id e', s.maxZIndex + 1⟩ := by
  constructor
  · intro id' f z hf hzf
    dsimp only at hf ⊢
    by_cases hid : id' = id
    · rw [hid, setWin_self] at hf
      cases hf
      rw [hz] at hzf
      have : s.maxZIndex + 1 = z := by simpa using hzf
      omega
    · rw [setWin_ne _ _ _ _ hid] at hf
      exact Nat.le_succ_of_le (hb id' f z hf hzf)
  · intro id₁ id₂ e₁ e₂ z₁ z₂ hne h₁ h₂ hz₁ hz₂
    dsimp only at h₁ h₂
    by_cases hid₁ : id₁ = id
    · rw [hid₁, setWin_self] at h₁
      cases h₁
      rw [hz] at hz₁
      have hz₁' : s.maxZIndex + 1 = z₁ := by simpa using hz₁
      have hid₂ : id₂ ≠ id := fun h => hne (hid₁.trans h.symm)
      rw [setWin_ne _ _ _ _ hid₂] at h₂
      have := hb id₂ e₂ z₂ h₂ hz₂
      omega
    · rw [setWin_ne _ _ _ _ hid₁] at h₁
      by_cases hid₂ : id₂ = id
      · rw [hid₂, setWin_self] at h₂
        cases h₂
        rw [hz] at hz₂
        have hz₂' : s.maxZIndex + 1 = z₂ := by simpa using hz₂
        have := hb id₁ e₁ z₁ h₁ hz₁
        omega
      · rw [setWin_ne _ _ _ _ hid₂] at h₂
        exact hd id₁ id₂ e₁ e₂ z₁ z₂ hne h₁ h₂ hz₁ hz₂

theorem zinv_write_keep (s : MgrState) (id : String) (e' : WinEntry)
    (hz : ∀ z, e'.zIndex = some z → ∃ e, s.windows id = some e ∧ e.zIndex = some z)
    (hb : ZBound s) (hd : ZDistinct s) :
    ZBound ⟨setWin s.windows id e', s.maxZIndex⟩ ∧
    ZDistinct ⟨setWin s.windows id e', s.maxZIndex⟩ := by
  constructor
  · intro id' f z hf hzf
    dsimp only at hf ⊢
    by_cases hid : id' = id
    · rw [hid, setWin_self] at hf
      cases hf
      obtain ⟨e, he, hez⟩ := hz z hzf
      exact hb id e z he hez
    · rw [setWin_ne _ _ _ _ hid] at hf
      exact hb id' f z hf hzf
  · intro id₁ id₂ e₁ e₂ z₁ z₂ hne h₁ h₂ hz₁ hz₂
    dsimp only at h₁ h₂
    by_cases hid₁ : id₁ = id
    · rw [hid₁, setWin_self] at h₁
      cases h₁
      obtain ⟨e, he, hez⟩ := hz z₁ hz₁
      have hid₂ : id₂ ≠ id := fun h => hne (hid₁.trans h.symm)
      rw [setWin_ne _ _ _ _ hid₂] at h₂
      have hne' : id ≠ id₂ := fun h => hne (hid₁.trans h)
      exact hd id id₂ e e₂ z₁ z₂ hne' he h₂ hez hz₂
    · rw [setWin_ne _ _ _ _ hid₁] at h₁
      by_cases hid₂ : id₂ = id
      · rw [hid₂, setWin_self] at h₂
        cases h₂
        obtain ⟨e, he, hez⟩ := hz z₂ hz₂
        have hne' : id₁ ≠ id := fun h => hne (h.trans hid₂.symm)
        exact hd id₁ id e₁ e z₁ z₂ hne' h₁ he hz₁ hez
      · rw [setWin_ne _ _ _ _ hid₂] at h₂
        exact hd id₁ id₂ e₁ e₂ z₁ z₂ hne h₁ h₂ hz₁ hz₂

theorem zinv_step (s : MgrState) (op : Op) (hop : noZOverride op = true)
    (hb : ZBound s) (hd : ZDistinct s) :
    ZBound (stepMgr s op) ∧ ZDistinct (stepMgr s op) := by
  cases op with
  | create id st =>
    have hn : st.zIndex = none := Option.isNone_iff_eq_none.1 hop
    refine zinv_write_fresh s id _ ?_ hb hd
    simp [mergeEntry, defaultEntry, hn]
  | close id =>
    refine zinv_write_keep s id _ ?_ hb hd
    intro z hz
    cases he : s.windows id with
    | none => simp [he, emptyEntry] at hz
    | some e => exact ⟨e, rfl, by simpa [he] using hz⟩
  | update id u =>
    have hn : u.zIndex = none := Option.isNone_iff_eq_none.1 hop
    refine zinv_write_keep s id _ ?_ hb hd
    intro z hz
    rw [mergeEntry] at hz
    simp only [hn, Option.none_orElse] at hz
    cases he : s.windows id with
    | none => simp [he, emptyEntry] at hz
    | some e => exact ⟨e, rfl, by simpa [he] using hz⟩
  | focus id =>
    exact zinv_write_fresh s id _ rfl hb hd
  | minimize id =>
    refine zinv_write_keep s id _ ?_ hb hd
    intro z hz
    cases he : s.windows id with
    | none => simp [he, emptyEntry] at hz
    | some e => exact ⟨e, rfl, by simpa [he] using hz⟩
  | maximize id =>
    refine zinv_write_keep s id _ ?_ hb hd
    intro z hz
    cases he : s.windows id with
    | none => simp [he, emptyEntry] at hz
    | some e => exact ⟨e, rfl, by simpa [he] using hz⟩
  | restore id =>
    refine zinv_write_keep s id _ ?_ hb hd
    intro z hz
    cases he : s.windows id with
    | none => simp [he, emptyEntry] at hz
    | some e => exact ⟨e, rfl, by simpa [he] using hz⟩

theorem zinv_applyOps (ops : List Op) (s : MgrState)
    (hops : ∀ op ∈ ops, noZOverride op = true)
    (hb : ZBound s) (hd : ZDistinct s) :
    ZBound (applyOps s ops) ∧ ZDistinct (applyOps s ops) := by
  induction ops generalizing s with
  | nil => exact ⟨hb, hd⟩
  | cons op ops ih =>
    have hstep := zinv_step s op (hops op (List.mem_cons_self op ops)) hb hd
    exact ih (stepMgr s op) (fun o ho => hops o (List.mem_cons_of_mem op ho)) hstep.1 hstep.2

theorem zbound_init : ZBound mgrInit := by
  intro id e z h
  simp [mgrInit] at h

theorem zdistinct_init : ZDistinct mgrInit := by
  intro id₁ id₂ e₁ e₂ z₁ z₂ hne h₁
  simp [mgrInit] at h₁

theorem maxZIndex_mono (s : MgrState) (op : Op) :
    s.maxZIndex ≤ (stepMgr s op).maxZIndex := by
  cases op <;>
    simp [stepMgr, createWindow, closeWindow, updateWindow, focusWindow,
      minimizeWindow, maximizeWindow, restoreWindow]

/-! ### Claims -/

/-- C1, counterexample: a second `createWindow` call on an id already present
is not a no-op.  `createWindow "w1" {title:"T"}` followed by
`createWindow "w1" {title:"U"}` leaves the registry's "w1" title as "U", not
"T", and the second call changes the stored entry. -/
theorem c1_counterexample :
    ((applyOps mgrInit
        [Op.create "w1" { emptyEntry with title := some "T" },
         Op.create "w1" { emptyEntry with title := some "U" }]).windows "w1").map
      WinEntry.title = some (some "U") ∧
    ((applyOps mgrInit
        [Op.create "w1" { emptyEntry with title := some "T" },
         Op.create "w1" { emptyEntry with title := some "U" }]).windows "w1").map
      WinEntry.title ≠ some (some "T") ∧
    (applyOps mgrInit [Op.create "w1" { emptyEntry with title := some "T" }]).windows "w1"
      ≠ (applyOps mgrInit
          [Op.create "w1" { emptyEntry with title := some "T" },
           Op.create "w1" { emptyEntry with title := some "U" }]).windows "w1" :=
  ⟨by decide, by decide, by decide⟩

/-- C1, amended: `createWindow` on an id already present in the registry is
not a no-op: it unconditionally re-registers the window, replacing the entry
by the defaults (with a fresh zIndex from the counter) merged under the new
partial state; in particular the stored title becomes the new partial state's
title when supplied (default "Window" otherwise), so a second
`createWindow("w1", {title:"U"})` leaves the title "U".  Call sites obtain
ensure-open semantics by guarding with an existence check before calling. -/
theorem c1_amended (s : MgrState) (id : String) (st : WinEntry)
    (h : (s.windows id).isSome = true) :
    (createWindow s id st).windows id
      = some (mergeEntry (defaultEntry id (s.maxZIndex + 1)) st) ∧
    ((createWindow s id st).windows id).map WinEntry.title
      = some (some (st.title.getD "Window")) := by
  constructor
  · simp [createWindow, setWin_self]
  · cases ht : st.title <;>
      simp [createWindow, setWin_self, mergeEntry, defaultEntry, ht]

/-- C1, witness for `c1_amended` at a concrete registry with "w1" present. -/
theorem c1_amended_witness :
    (((createWindow mgrInit "w1" { emptyEntry with title := some "T" }).windows
      "w1").isSome = true) ∧
    ((createWindow (createWindow mgrInit "w1" { emptyEntry with title := some "T" })
        "w1" { emptyEntry with title := some "U" }).windows "w1").map WinEntry.title
      = some (some "U") :=
  ⟨by decide,
   (c1_amended (createWindow mgrInit "w1" { emptyEntry with title := some "T" })
      "w1" { emptyEntry with title := some "U" } (by decide)).2⟩

/-- C2, counterexample: the minimized/maximized flags are not mutually
exclusive under arbitrary operation sequences: starting from the empty
registry, `createWindow "w"`, `maximizeWindow "w"`, `minimizeWindow "w"`
leaves the window with minimized = true AND maximized = true, because
`minimizeWindow` does not clear `maximized`. -/
theorem c2_counterexample :
    ((applyOps mgrInit
        [Op.create "w" emptyEntry, Op.maximize "w", Op.minimize "w"]).windows "w").map
      (fun e => (e.minimized, e.maximized)) = some (some true, some true) := by
  decide

/-- C2, amended: `maximizeWindow` clears `minimized` (immediately after it the
window has maximized = true and minimized = false) and `restoreWindow` clears
both flags, but `minimizeWindow` sets `minimized` while leaving `maximized`
exactly as it was, so a maximized window that is then minimized carries both
flags; the mutual exclusion holds right after every maximize or restore, not
after every operation sequence. -/
theorem c2_amended (s : MgrState) (id : String) :
    ((maximizeWindow s id).windows id).map (fun e => (e.maximized, e.minimized))
      = some (some true, some false) ∧
    ((restoreWindow s id).windows id).map (fun e => (e.maximized, e.minimized))
      = some (some false, some false) ∧
    ((minimizeWindow s id).windows id).map (fun e => (e.minimized, e.maximized))
      = some (some true, ((s.windows id).getD emptyEntry).maximized) := by
  refine ⟨?_, ?_, ?_⟩ <;>
    simp [maximizeWindow, restoreWindow, minimizeWindow, setWin_self]

/-- C3, counterexample: `parseRangeInput ","` succeeds with zero errors and
ZERO ranges — the comma splits into two tokens that are both dropped by the
blank filter, the loop body never runs, and `success := errors.length === 0`
is true — so a successful parse does not guarantee a non-empty range list. -/
theorem c3_counterexample :
    (parseRangeInput ",").success = true ∧ (parseRangeInput ",").ranges = [] ∧
    (parseRangeInput ",").errors = [] :=
  ⟨by decide, by decide, by decide⟩

/-- C3, amended: `parseRangeInput` returns success exactly when there are zero
errors, but the range list may then be empty (it is empty when every
comma-separated token is blank after trimming, e.g. ","); when the input is
non-blank, the parse emits exactly one error per malformed token; an empty or
whitespace-only input is rejected before tokenizing with success = false,
exactly one error, and zero ranges. -/
theorem c3_amended (s : String) :
    ((parseRangeInput s).success = true ↔ (parseRangeInput s).errors = []) ∧
    (jsTrim s = "" → parseRangeInput s = ⟨false, [], ["Input cannot be empty"]⟩) ∧
    (jsTrim s ≠ "" →
      (parseRangeInput s).errors.length
        = (partsOf s).countP (fun p => (parsePart p).isRight)) := by
  by_cases h : jsTrim s = ""
  · refine ⟨?_, fun _ => ?_, fun hc => absurd h hc⟩
    · simp [parseRangeInput, h]
    · simp [parseRangeInput, h]
  · have hunfold : parseRangeInput s
        = ⟨((partsOf s).filterMap errorOf?).length == 0,
           (partsOf s).filterMap rangeOf?, (partsOf s).filterMap errorOf?⟩ := by
      simp [parseRangeInput, h, parse_foldl_eq]
    refine ⟨?_, fun hc => absurd hc h, fun _ => ?_⟩
    · rw [hunfold]
      simp [List.length_eq_zero]
    · rw [hunfold]
      simpa using errors_length_eq_countP (partsOf s)

/-- C3, witness for `c3_amended` at the whitespace-only input "  ". -/
theorem c3_witness :
    (jsTrim "  " = "") ∧
    parseRangeInput "  " = ⟨false, [], ["Input cannot be empty"]⟩ :=
  ⟨by decide, (c3_amended "  ").2.1 (by decide)⟩

/-- C4, counterexample: on validation failure neither handler flips the task
status to error.  `handleTextToTxt` with blank text and `handlePdfMerge` with
one selected file each append exactly the expected error log entry but leave
the (initially idle) task status at idle, not error. -/
theorem c4_counterexample :
    (getTask (handleTextToTxt "" "document" tasksInit) TaskType.textToTxt).status
      = TaskStatus.idle ∧
    (getTask (handleTextToTxt "" "document" tasksInit) TaskType.textToTxt).logs
      = [⟨"Please enter some text first!", LogType.error⟩] ∧
    (handlePdfMergeEntry ["a.pdf"] tasksInit).map
        (fun ts => ((getTask ts TaskType.pdfMerge).status,
          (getTask ts TaskType.pdfMerge).logs))
      = some (TaskStatus.idle,
          [⟨"Please select at least 2 PDF files to merge!", LogType.error⟩]) :=
  ⟨by decide, by decide, by decide⟩

/-- C4, amended: a validation failure at the handler's entry (blank required
text for textToTxt; fewer than 2 selected files for pdfMerge) appends a task
log entry of severity error and returns without attempting the operation, but
leaves the task's status unchanged — there is no status flip to error on the
validation path. -/
theorem c4_amended :
    (∀ (textInput txtFileName : String) (ts : Tasks), jsTrim textInput = "" →
      handleTextToTxt textInput txtFileName ts
        = addLog ts TaskType.textToTxt "Please enter some text first!" LogType.error ∧
      (getTask (handleTextToTxt textInput txtFileName ts) TaskType.textToTxt).status
        = (getTask ts TaskType.textToTxt).status) ∧
    (∀ (files : List String) (ts : Tasks), files.length < 2 →
      handlePdfMergeEntry files ts
        = some (addLog ts TaskType.pdfMerge
            "Please select at least 2 PDF files to merge!" LogType.error) ∧
      (getTask (addLog ts TaskType.pdfMerge
          "Please select at least 2 PDF files to merge!" LogType.error)
        TaskType.pdfMerge).status = (getTask ts TaskType.pdfMerge).status) := by
  constructor
  · intro textInput txtFileName ts h
    refine ⟨by simp [handleTextToTxt, h], ?_⟩
    simp [handleTextToTxt, h, addLog, getTask, setTask]
  · intro files ts h
    refine ⟨by simp [handlePdfMergeEntry, h], ?_⟩
    simp [addLog, getTask, setTask]

/-- C4, witness for `c4_amended` at blank text and a single selected file. -/
theorem c4_witness :
    (jsTrim "" = "") ∧ ((["a.pdf"] : List String).length < 2) ∧
    handleTextToTxt "" "document" tasksInit
      = addLog tasksInit TaskType.textToTxt "Please enter some text first!"
          LogType.error ∧
    handlePdfMergeEntry ["a.pdf"] tasksInit
      = some (addLog tasksInit TaskType.pdfMerge
          "Please select at least 2 PDF files to merge!" LogType.error) :=
  ⟨by decide, by decide,
   (c4_amended.1 "" "document" tasksInit (by decide)).1,
   (c4_amended.2 ["a.pdf"] tasksInit (by decide)).1⟩

/-- C5: the task lifecycle behaves as specified from any starting state and
for every task type: after `resetTask` then `updateTaskProgress 2 10` the
status is processing with progress 2 and total 10; after a subsequent
`completeTask blob "x.zip"` the status is completed with the result and file
name set; and a final `resetTask` is a single `setTask` state replacement
that clears logs, progress, total, result and fileName and returns the status
to idle (preserving only the task's identity fields). -/
theorem c5_lifecycle (τ : TaskType) (ts : Tasks) (blob : Blob) :
    (getTask (updateTaskProgress (resetTask ts τ) τ 2 10) τ).status
      = TaskStatus.processing ∧
    (getTask (updateTaskProgress (resetTask ts τ) τ 2 10) τ).progress = 2 ∧
    (getTask (updateTaskProgress (resetTask ts τ) τ 2 10) τ).total = 10 ∧
    (getTask (completeTask (updateTaskProgress (resetTask ts τ) τ 2 10) τ
        (some blob) (some "x.zip")) τ).status = TaskStatus.completed ∧
    (getTask (completeTask (updateTaskProgress (resetTask ts τ) τ 2 10) τ
        (some blob) (some "x.zip")) τ).result = some blob ∧
    (getTask (completeTask (updateTaskProgress (resetTask ts τ) τ 2 10) τ
        (some blob) (some "x.zip")) τ).fileName = some "x.zip" ∧
    resetTask (completeTask (updateTaskProgress (resetTask ts τ) τ 2 10) τ
        (some blob) (some "x.zip")) τ
      = setTask (completeTask (updateTaskProgress (resetTask ts τ) τ 2 10) τ
          (some blob) (some "x.zip")) τ
          { getTask (completeTask (updateTaskProgress (resetTask ts τ) τ 2 10) τ
              (some blob) (some "x.zip")) τ with
              status := TaskStatus.idle
              progress := 0
              total := 0
              logs := []
              result := none
              fileName := none } ∧
    getTask (resetTask (completeTask (updateTaskProgress (resetTask ts τ) τ 2 10) τ
        (some blob) (some "x.zip")) τ) τ
      = { getTask ts τ with
            status := TaskStatus.idle
            progress := 0
            total := 0
            logs := []
            result := none
            fileName := none } := by
  cases τ <;> exact ⟨rfl, rfl, rfl, rfl, rfl, rfl, rfl, rfl⟩

/-- C6: a malformed token does not abort parsing of later tokens —
`parseRangeInput "5, abc, 7-9"` yields success = false, exactly the two
accepted ranges normalized to (5,5) and (7,9), and exactly one error naming
"abc"; and every token of shape A-B with A > B is rejected with the error
message that quotes the offending token and both endpoint values. -/
theorem c6_partial_success :
    parseRangeInput "5, abc, 7-9"
      = ⟨false, [⟨"5", 5, 5⟩, ⟨"7-9", 7, 9⟩],
          ["Invalid range format: \"abc\". Use formats like \"5-10\" or \"5–10\" or \"5\""]⟩ ∧
    ∀ part a b, hyphenMatch part = some (a, b) → a > b →
      parsePart part = Sum.inr ("Invalid range \"" ++ part ++ "\": start (" ++
        toString a ++ ") is greater than end (" ++ toString b ++ ")") := by
  refine ⟨by decide, ?_⟩
  intro part a b hm hab
  simp [parsePart, hm, hab]

/-- C6, witness for the descending-range half of `c6_partial_success` at the
token "9-5". -/
theorem c6_witness :
    hyphenMatch "9-5" = some (9, 5) ∧ 9 > 5 ∧
    parsePart "9-5"
      = Sum.inr "Invalid range \"9-5\": start (9) is greater than end (5)" :=
  ⟨by decide, by decide,
   c6_partial_success.2 "9-5" 9 5 (by decide) (by decide)⟩

/-- C7: for every list of range descriptors with start ≤ end,
`expandRangesToPages` returns a strictly ascending (hence duplicate-free)
list whose members are exactly the union of the inclusive ranges. -/
theorem c7_expand (ranges : List RangeDescriptor)
    (h : ∀ r ∈ ranges, r.start ≤ r.end_) :
    List.Sorted (· < ·) (expandRangesToPages ranges) ∧
    ∀ x, x ∈ expandRangesToPages ranges ↔
      ∃ r ∈ ranges, r.start ≤ x ∧ x ≤ r.end_ := by
  constructor
  · have hs : List.Sorted (· ≤ ·) ((collectPages ranges).insertionSort (· ≤ ·)) :=
      List.sorted_insertionSort _ _
    have hn : ((collectPages ranges).insertionSort (· ≤ ·)).Nodup :=
      ((List.perm_insertionSort _ _).nodup_iff).2 (collectPages_nodup ranges)
    exact hs.lt_of_le hn
  · intro x
    rw [expandRangesToPages, List.mem_insertionSort, mem_collectPages]

/-- C7, witness for `c7_expand` at the overlapping ranges parsed from
"1-3,2-4", which expand to exactly [1, 2, 3, 4]. -/
theorem c7_witness :
    (∀ r ∈ (parseRangeInput "1-3,2-4").ranges, r.start ≤ r.end_) ∧
    List.Sorted (fun a b => a < b)
      (expandRangesToPages (parseRangeInput "1-3,2-4").ranges) ∧
    expandRangesToPages (parseRangeInput "1-3,2-4").ranges = [1, 2, 3, 4] :=
  ⟨by decide,
   (c7_expand (parseRangeInput "1-3,2-4").ranges (by decide)).1,
   by decide⟩

/-- C8: `maximizeWindow` rewrites only the maximized/minimized flags, so for
every registered window, maximize followed by restore leaves the entry equal
to the original with both flags false — the stored position and size are the
exact pre-maximize values and id, visible, zIndex, snapState and title are
unchanged by the pair. -/
theorem c8_maximize_restore (s : MgrState) (id : String) (e : WinEntry)
    (h : s.windows id = some e) :
    (maximizeWindow s id).windows id
      = some { e with maximized := some true, minimized := some false } ∧
    (restoreWindow (maximizeWindow s id) id).windows id
      = some { e with maximized := some false, minimized := some false } ∧
    ((restoreWindow (maximizeWindow s id) id).windows id).map WinEntry.position
      = some e.position ∧
    ((restoreWindow (maximizeWindow s id) id).windows id).map WinEntry.size
      = some e.size := by
  have h1 : (maximizeWindow s id).windows id
      = some { e with maximized := some true, minimized := some false } := by
    simp [maximizeWindow, setWin_self, h]
  have h2 : (restoreWindow (maximizeWindow s id) id).windows id
      = some { e with maximized := some false, minimized := some false } := by
    simp [restoreWindow, setWin_self, h1]
  exact ⟨h1, h2, by rw [h2]; rfl, by rw [h2]; rfl⟩

/-- C8, witness for `c8_maximize_restore` on a freshly created window. -/
theorem c8_witness :
    ((createWindow mgrInit "w" emptyEntry).windows "w"
      = some (defaultEntry "w" 2001)) ∧
    (restoreWindow (maximizeWindow (createWindow mgrInit "w" emptyEntry) "w")
        "w").windows "w"
      = some { defaultEntry "w" 2001 with
          maximized := some false
          minimized := some false } :=
  ⟨by decide,
   (c8_maximize_restore (createWindow mgrInit "w" emptyEntry) "w"
      (defaultEntry "w" 2001) (by decide)).2.1⟩

/-- C9, counterexample: "at any instant at most one window holds the maximum
zIndex" fails, because `updateWindow` applies a caller-supplied `zIndex`
verbatim: after creating w1 (zIndex 2001) and w2 (zIndex 2002), the call
`updateWindow "w1" {zIndex: 2002}` leaves the two distinct windows both
holding the maximal zIndex 2002. -/
theorem c9_counterexample :
    ((applyOps mgrInit
        [Op.create "w1" emptyEntry, Op.create "w2" emptyEntry,
         Op.update "w1" { emptyEntry with zIndex := some 2002 }]).windows "w1").map
      WinEntry.zIndex = some (some 2002) ∧
    ((applyOps mgrInit
        [Op.create "w1" emptyEntry, Op.create "w2" emptyEntry,
         Op.update "w1" { emptyEntry with zIndex := some 2002 }]).windows "w2").map
      WinEntry.zIndex = some (some 2002) ∧
    ("w1" : String) ≠ "w2" :=
  ⟨by decide, by decide, by decide⟩

/-- C9, amended: the zIndex counter never decreases under any operation and
every `focusWindow` call assigns exactly the bumped counter value (so
successive focus assignments are strictly increasing and never recycled; in
the concrete w1, w2, w1 focus chain from the empty registry the assignments
are 2003, 2004, 2005, i.e. zIndex(w1,final) > zIndex(w2) > zIndex(w1,initial));
and provided no `createWindow` initial state and no `updateWindow` update
carries a caller-supplied zIndex, every reachable state keeps all window
zIndexes bounded by the counter and pairwise distinct — hence at most one
window holds the maximum zIndex.  With a caller-supplied zIndex override the
uniqueness fails (see the counterexample). -/
theorem c9_amended :
    (∀ (s : MgrState) (op : Op), s.maxZIndex ≤ (stepMgr s op).maxZIndex) ∧
    (∀ (s : MgrState) (id : String),
      ((focusWindow s id).windows id).map WinEntry.zIndex
        = some (some (s.maxZIndex + 1)) ∧
      (focusWindow s id).maxZIndex = s.maxZIndex + 1) ∧
    (∀ ops : List Op, (∀ op ∈ ops, noZOverride op = true) →
      ZBound (applyOps mgrInit ops) ∧ ZDistinct (applyOps mgrInit ops)) ∧
    ((applyOps mgrInit [Op.create "w1" emptyEntry, Op.create "w2" emptyEntry,
        Op.focus "w1"]).windows "w1").map WinEntry.zIndex = some (some 2003) ∧
    ((applyOps mgrInit [Op.create "w1" emptyEntry, Op.create "w2" emptyEntry,
        Op.focus "w1", Op.focus "w2"]).windows "w2").map WinEntry.zIndex
      = some (some 2004) ∧
    ((applyOps mgrInit [Op.create "w1" emptyEntry, Op.create "w2" emptyEntry,
        Op.focus "w1", Op.focus "w2", Op.focus "w1"]).windows "w1").map
      WinEntry.zIndex = some (some 2005) := by
  refine ⟨maxZIndex_mono, ?_, ?_, by decide, by decide, by decide⟩
  · intro s id
    exact ⟨by simp [focusWindow, setWin_self], rfl⟩
  · intro ops hops
    exact zinv_applyOps ops mgrInit hops zbound_init zdistinct_init

/-- C9, witness for the hypothesis-bearing part of `c9_amended` at a concrete
override-free operation sequence. -/
theorem c9_witness :
    (∀ op ∈ [Op.create "w1" emptyEntry, Op.create "w2" emptyEntry, Op.focus "w1"],
      noZOverride op = true) ∧
    ZBound (applyOps mgrInit
      [Op.create "w1" emptyEntry, Op.create "w2" emptyEntry, Op.focus "w1"]) ∧
    ZDistinct (applyOps mgrInit
      [Op.create "w1" emptyEntry, Op.create "w2" emptyEntry, Op.focus "w1"]) :=
  ⟨by decide,
   (c9_amended.2.2.1 [Op.create "w1" emptyEntry, Op.create "w2" emptyEntry,
      Op.focus "w1"] (by decide)).1,
   (c9_amended.2.2.1 [Op.create "w1" emptyEntry, Op.create "w2" emptyEntry,
      Op.focus "w1"] (by decide)).2⟩

/-- C10: for an id absent from the registry, `closeWindow` and `updateWindow`
are not no-ops: spreading the undefined previous entry makes each insert a
new entry built only from its own writes — `closeWindow` inserts an entry
containing just visible = false, `updateWindow` inserts exactly the supplied
updates — with none of the `createWindow` defaults (position, size, zIndex,
title, flags) present. -/
theorem c10_absent_id (s : MgrState) (id : String) (updates : WinEntry)
    (h : s.windows id = none) :
    (closeWindow s id).windows id = some { emptyEntry with visible := some false } ∧
    (updateWindow s id updates).windows id = some updates := by
  constructor
  · simp [closeWindow, setWin_self, h]
  · simp [updateWindow, setWin_self, h, mergeEntry_empty_left]

/-- C10, witness for `c10_absent_id` at the empty registry. -/
theorem c10_witness :
    (mgrInit.windows "w" = none) ∧
    (closeWindow mgrInit "w").windows "w"
      = some { emptyEntry with visible := some false } ∧
    (updateWindow mgrInit "w" { emptyEntry with title := some "X" }).windows "w"
      = some { emptyEntry with title := some "X" } :=
  ⟨rfl,
   (c10_absent_id mgrInit "w" { emptyEntry with title := some "X" } rfl).1,
   (c10_absent_id mgrInit "w" { emptyEntry with title := some "X" } rfl).2⟩

end S2P
